import Mathlib

/-!
Verification development for the college administration application
(fee-payment reconciliation, dashboard aggregation, marks derivation).

The source is a TypeScript/Next.js code base.  The embedding below
translates the relevant route handlers into pure Lean functions:

* JavaScript numbers are modelled by `JsNumber` (rationals extended with
  `nan` and the two infinities), with the exact JS semantics of the
  comparison and arithmetic operators that the handlers use.
* ISO timestamp strings are modelled by natural numbers ordered the same
  way the strings compare lexicographically (both orders agree on the
  ISO format the code writes).
* The SQLite database is modelled by `DB`, a record of lists of rows;
  each drizzle query is translated to the corresponding list operation.
* A route handler becomes a function from the database and the parsed
  request to the pair of the database after the call and the response
  (`Except` of a domain error or the success payload).  Every early
  `return NextResponse.json(error)` in the source performs no write, so
  it is translated as returning the input database unchanged together
  with the error.
-/

namespace College

/-- JavaScript double values as far as the handlers distinguish them:
finite values are kept exact as rationals, plus `nan` and signed
infinity. -/
inductive JsNumber
  | nan
  | posInf
  | negInf
  | finite (q : ℚ)
deriving DecidableEq, Repr

/-- JS subtraction `a - b` on `JsNumber`. -/
def jsSub : JsNumber → JsNumber → JsNumber
  | .nan, _ => .nan
  | _, .nan => .nan
  | .posInf, .posInf => .nan
  | .posInf, _ => .posInf
  | .negInf, .negInf => .nan
  | .negInf, _ => .negInf
  | .finite _, .posInf => .negInf
  | .finite _, .negInf => .posInf
  | .finite a, .finite b => .finite (a - b)

/-- JS `Math.abs` on `JsNumber`. -/
def jsAbs : JsNumber → JsNumber
  | .nan => .nan
  | .posInf => .posInf
  | .negInf => .posInf
  | .finite q => .finite |q|

/-- JS comparison `a <= b`: any comparison involving `NaN` is false. -/
def jsLe : JsNumber → JsNumber → Bool
  | .nan, _ => false
  | _, .nan => false
  | .posInf, .posInf => true
  | .posInf, _ => false
  | .negInf, _ => true
  | .finite _, .posInf => true
  | .finite _, .negInf => false
  | .finite a, .finite b => a ≤ b

/-- JS comparison `a > b`: any comparison involving `NaN` is false. -/
def jsGt : JsNumber → JsNumber → Bool
  | .nan, _ => false
  | _, .nan => false
  | .posInf, .posInf => false
  | .posInf, _ => true
  | .negInf, _ => false
  | .finite _, .posInf => false
  | .finite _, .negInf => true
  | .finite a, .finite b => b < a

/-- JS truthiness of a number: `0` and `NaN` are falsy. -/
def JsNumber.truthy : JsNumber → Bool
  | .nan => false
  | .posInf => true
  | .negInf => true
  | .finite q => q ≠ 0

/-- Values a JSON request-body field can hold, as far as the handlers
inspect them (`typeof` checks, truthiness, numeric use). -/
inductive JsValue
  | undefined
  | null
  | num (n : JsNumber)
  | str (s : String)
  | boolean (b : Bool)
deriving DecidableEq, Repr

/-- JS truthiness of a body field. -/
def JsValue.truthy : JsValue → Bool
  | .undefined => false
  | .null => false
  | .num n => n.truthy
  | .str s => s ≠ ""
  | .boolean b => b

/-- Numeric content of a body field; the handlers only read it after a
`typeof x === "number"` check, so the non-number cases are never the
value actually used. -/
def JsValue.toNumber : JsValue → JsNumber
  | .num n => n
  | _ => .nan

/-- JS `Math.round` on a finite value: round half toward positive
infinity, `Math.round x = ⌊x + 1/2⌋`. -/
def jsRound (q : ℚ) : ℤ := ⌊q + 1 / 2⌋

/-! ## Data model (src/db/schema.ts) -/

/-- Fee lifecycle status; the `status` column is constrained by the
route validations to `pending`, `paid` or `overdue`. -/
inductive FeeStatus
  | pending
  | paid
  | overdue
deriving DecidableEq, Repr

/-- Parse a caller-supplied status string the way the fees routes
validate it against `['pending', 'paid', 'overdue']`. -/
def FeeStatus.ofString : String → Option FeeStatus
  | "pending" => some .pending
  | "paid" => some .paid
  | "overdue" => some .overdue
  | _ => none

/-- Row of the `fees` table.  `amount` is a `real not null` column and
the insert route only accepts finite positive numbers for it, so it is
kept as a rational. -/
structure Fee where
  id : Nat
  studentId : Nat
  amount : ℚ
  dueDate : Nat
  paidDate : Option Nat
  status : FeeStatus
  feeType : String
  createdAt : Nat
  updatedAt : Nat
deriving DecidableEq, Repr

/-- Row of the `students` table restricted to the columns the embedded
handlers read or write.  `balance` is a nullable `real` column; the
payment handler can store any JS number into it. -/
structure Student where
  id : Nat
  name : String
  balance : Option JsNumber
  status : String
  updatedAt : Nat
deriving DecidableEq, Repr

/-- Row of the `courses` table restricted to the columns the embedded
handlers read. -/
structure Course where
  id : Nat
  title : String
  code : String
deriving DecidableEq, Repr

/-- Row of the `enrollments` table. -/
structure Enrollment where
  id : Nat
  studentId : Nat
  courseId : Nat
  enrollmentDate : Nat
  status : String
  createdAt : Nat
deriving DecidableEq, Repr

/-- Row of the `attendance` table restricted to the columns the
dashboard reads. -/
structure AttendanceRecord where
  id : Nat
  studentId : Nat
  courseId : Nat
  status : String
deriving DecidableEq, Repr

/-- Row of the `marks` table.  The mark columns are nullable integers in
the schema. -/
structure MarksRecord where
  id : Nat
  studentId : Nat
  courseId : Nat
  semester : Nat
  internalMarks : Option ℤ
  externalMarks : Option ℤ
  totalMarks : Option ℤ
  grade : Option String
  createdAt : Nat
  updatedAt : Nat
deriving DecidableEq, Repr

/-- The persistent store: one list of rows per table the embedded
handlers touch. -/
structure DB where
  students : List Student
  courses : List Course
  fees : List Fee
  marks : List MarksRecord
  attendance : List AttendanceRecord
  enrollments : List Enrollment
deriving DecidableEq, Repr

/-! ## Fee payment handler (PUT /api/fees/[id]/payment) -/

/-- Domain errors of the fees routes, one constructor per distinct
`code` the handlers return.  `amountMismatch` carries the two values the
source interpolates into its message, formalising that the error reports
both the paid and the owed amount. -/
inductive PaymentError
  | userIdNotAllowed
  | missingAmountPaid
  | missingPaymentMethod
  | missingTransactionId
  | invalidAmount
  | feeNotFound
  | studentNotFound
  | feeAlreadyPaid
  | invalidFeeStatus
  | amountMismatch (amountPaid : JsNumber) (feeAmount : ℚ)
  | updateFailed
deriving DecidableEq, Repr

/-- Parsed JSON body of a payment request.  `hasUserId` records whether
the body contains a `userId` or `user_id` key (the handler rejects
either). -/
structure PaymentBody where
  amount_paid : JsValue
  payment_method : JsValue
  transaction_id : JsValue
  hasUserId : Bool
deriving DecidableEq, Repr

/-- Test for `!x || typeof x !== 'string'`: the check fails exactly
unless `x` is a nonempty string (the empty string is falsy). -/
def isNonemptyString : JsValue → Bool
  | .str s => s ≠ ""
  | _ => false

/-- Body validation of the payment handler, in source order: the
`userId` security check, the presence check on `amount_paid`, the
truthy-string checks on `payment_method` and `transaction_id`, and the
`typeof amount_paid !== 'number' || amount_paid <= 0` check. -/
def validatePaymentBody (b : PaymentBody) : Option PaymentError :=
  if b.hasUserId then some .userIdNotAllowed
  else if b.amount_paid = .undefined ∨ b.amount_paid = .null then some .missingAmountPaid
  else if ¬ isNonemptyString b.payment_method then some .missingPaymentMethod
  else if ¬ isNonemptyString b.transaction_id then some .missingTransactionId
  else
    match b.amount_paid with
    | .num n => if jsLe n (.finite 0) then some .invalidAmount else none
    | _ => some .invalidAmount

/-- Payment receipt and student info section of the success response. -/
structure PaymentResponse where
  feeId : Nat
  studentId : Nat
  studentName : String
  amountPaid : JsNumber
  previousBalance : JsNumber
  newBalance : JsNumber
  processedAt : Nat
deriving DecidableEq, Repr

/-- The single `SELECT ... FROM fees LEFT JOIN students ... WHERE
fees.id = ? LIMIT 1` of the payment handler followed by all the checks
it performs on the returned row, exactly in source order: fee existence,
student existence, already-paid, invalid-status, amount tolerance.  All
of this happens before the first write. -/
def readAndValidate (db : DB) (feeId : Nat) (body : PaymentBody) :
    Except PaymentError (Fee × Student) :=
  match db.fees.find? (fun f => f.id = feeId) with
  | none => .error .feeNotFound
  | some fee =>
    match db.students.find? (fun s => s.id = fee.studentId) with
    | none => .error .studentNotFound
    | some student =>
      if fee.status = .paid then .error .feeAlreadyPaid
      else if fee.status ≠ .pending ∧ fee.status ≠ .overdue then .error .invalidFeeStatus
      else if jsGt (jsAbs (jsSub body.amount_paid.toNumber (.finite fee.amount)))
          (.finite (1 / 100)) then
        .error (.amountMismatch body.amount_paid.toNumber fee.amount)
      else .ok (fee, student)

/-- The `UPDATE fees SET status='paid', paid_date=?, updated_at=? WHERE
id = ?` write of the payment handler. -/
def writeFeePaid (db : DB) (feeId : Nat) (now : Nat) : DB :=
  { db with
    fees := db.fees.map fun f =>
      if f.id = feeId then { f with status := .paid, paidDate := some now, updatedAt := now }
      else f }

/-- The `UPDATE students SET balance=?, updated_at=? WHERE id = ?` write
of the payment handler.  The new balance is computed from the snapshot
`student` row read before the fee update: `(student.balance || 0) -
amount_paid` (an absolute write, not a relative decrement). -/
def writeStudentBalance (db : DB) (student : Student) (amountPaid : JsNumber) (now : Nat) :
    DB × JsNumber × JsNumber :=
  let prev := match student.balance with
    | none => JsNumber.finite 0
    | some b => if b.truthy then b else .finite 0
  let newBalance := jsSub prev amountPaid
  ({ db with
      students := db.students.map fun s =>
        if s.id = student.id then { s with balance := some newBalance, updatedAt := now }
        else s },
    prev, newBalance)

/-- PUT /api/fees/[id]/payment: the fee-payment Reconciler.  Validates
the body, reads and validates the fee and its student, then performs the
two writes and returns the receipt.  Error paths return the database
unchanged, mirroring the early returns of the source, which write
nothing.  The `updatedFee.length === 0` guard of the source is the
emptiness check on the rows returned by the fee update. -/
def recordPayment (db : DB) (feeId : Nat) (body : PaymentBody) (now : Nat) :
    DB × Except PaymentError PaymentResponse :=
  match validatePaymentBody body with
  | some e => (db, .error e)
  | none =>
    match readAndValidate db feeId body with
    | .error e => (db, .error e)
    | .ok (_fee, student) =>
      let db1 := writeFeePaid db feeId now
      if (db1.fees.filter (fun f => f.id = feeId)) = [] then (db1, .error .updateFailed)
      else
        let (db2, prev, newBalance) :=
          writeStudentBalance db1 student body.amount_paid.toNumber now
        (db2, .ok
          { feeId := feeId
            studentId := student.id
            studentName := student.name
            amountPaid := body.amount_paid.toNumber
            previousBalance := prev
            newBalance := newBalance
            processedAt := now })

/-! ## Generic fee update handler (PUT /api/fees?id=...)

The collection update endpoint accepts any subset of the fee columns.
Provided fields are modelled already well typed (the source rejects
non-number `studentId`/`amount` with its own errors, and dates are
modelled as numbers, which are always parseable); `status` is kept as
the raw string the source checks against `['pending', 'paid',
'overdue']`. -/

/-- Errors of the generic fee update handler. -/
inductive FeeUpdateError
  | feeNotFound
  | studentNotFound
  | invalidAmount
  | invalidType
  | invalidStatus
deriving DecidableEq, Repr

/-- Valid fee types, from the handler's `validTypes` list. -/
def validFeeTypes : List String := ["tuition", "exam", "library", "hostel"]

/-- Parsed JSON body of a generic fee update; `none` means the field was
absent.  `paidDate := some none` is an explicit `null`. -/
structure FeeUpdateBody where
  studentId : Option Nat := none
  amount : Option ℚ := none
  dueDate : Option Nat := none
  feeType : Option String := none
  status : Option String := none
  paidDate : Option (Option Nat) := none
deriving DecidableEq, Repr

/-- Build the drizzle `updates` object and apply it to a row: every
provided field overrides the stored one, `updatedAt` is always set. -/
def applyFeeUpdates (f : Fee) (b : FeeUpdateBody) (now : Nat) : Fee :=
  { f with
    updatedAt := now
    studentId := b.studentId.getD f.studentId
    amount := b.amount.getD f.amount
    dueDate := b.dueDate.getD f.dueDate
    feeType := b.feeType.getD f.feeType
    status := match b.status with
      | some s => (FeeStatus.ofString s).getD f.status
      | none => f.status
    paidDate := b.paidDate.getD f.paidDate }

/-- PUT /api/fees?id=...: existence check, per-field validations in
source order, then an unconditional update of every provided field —
regardless of the fee's current status. -/
def updateFee (db : DB) (feeId : Nat) (body : FeeUpdateBody) (now : Nat) :
    DB × Except FeeUpdateError Fee :=
  match db.fees.find? (fun f => f.id = feeId) with
  | none => (db, .error .feeNotFound)
  | some fee =>
    if body.studentId.any (fun sid => (db.students.find? (fun s => s.id = sid)).isNone) then
      (db, .error .studentNotFound)
    else if body.amount.any (fun a => decide (a ≤ 0)) then (db, .error .invalidAmount)
    else if body.feeType.any (fun t => ¬ validFeeTypes.contains t) then (db, .error .invalidType)
    else if body.status.any (fun s => (FeeStatus.ofString s).isNone) then
      (db, .error .invalidStatus)
    else
      ({ db with
          fees := db.fees.map fun f =>
            if f.id = feeId then applyFeeUpdates f body now else f },
        .ok (applyFeeUpdates fee body now))

/-! ## Marks handlers (src/app/api/marks/route.ts) -/

/-- Grade calculation helper of the marks route. -/
def calculateGrade (totalMarks : ℤ) : String :=
  if 90 ≤ totalMarks then "A"
  else if 80 ≤ totalMarks then "B"
  else if 70 ≤ totalMarks then "C"
  else if 60 ≤ totalMarks then "D"
  else "F"

/-- Total marks helper of the marks route: `(internalMarks || 0) +
(externalMarks || 0)`; the callers pass integers, on which `|| 0` only
replaces `0` by `0`. -/
def calculateTotalMarks (internalMarks externalMarks : ℤ) : ℤ :=
  internalMarks + externalMarks

/-- Errors of the marks handlers referenced by the embedded paths. -/
inductive MarksError
  | invalidInternalMarks
  | invalidExternalMarks
  | studentNotFound
  | courseNotFound
  | marksNotFound
deriving DecidableEq, Repr

/-- Parsed POST body of the marks route.  The ids are modelled already
parsed (the source runs `parseInt` and rejects `NaN`).  `totalMarks` and
`grade` are listed so that the development can state that the handler
never reads them: the source destructures only the five other fields. -/
structure MarksBody where
  studentId : Nat
  courseId : Nat
  semester : Nat
  internalMarks : Option ℤ := none
  externalMarks : Option ℤ := none
  totalMarks : Option ℤ := none
  grade : Option String := none
deriving DecidableEq, Repr

/-- POST /api/marks: range-validate the provided mark components, check
the student and course exist, then insert with derived `totalMarks` and
`grade` (`parseInt(x) || 0` defaults an absent component to `0`). -/
def createMarks (db : DB) (body : MarksBody) (newId : Nat) (now : Nat) :
    DB × Except MarksError MarksRecord :=
  if body.internalMarks.any (fun v => decide (v < 0 ∨ 100 < v)) then
    (db, .error .invalidInternalMarks)
  else if body.externalMarks.any (fun v => decide (v < 0 ∨ 100 < v)) then
    (db, .error .invalidExternalMarks)
  else if (db.students.find? (fun s => s.id = body.studentId)).isNone then
    (db, .error .studentNotFound)
  else if (db.courses.find? (fun c => c.id = body.courseId)).isNone then
    (db, .error .courseNotFound)
  else
    let parsedInternalMarks := body.internalMarks.getD 0
    let parsedExternalMarks := body.externalMarks.getD 0
    let total := calculateTotalMarks parsedInternalMarks parsedExternalMarks
    let record : MarksRecord :=
      { id := newId
        studentId := body.studentId
        courseId := body.courseId
        semester := body.semester
        internalMarks := some parsedInternalMarks
        externalMarks := some parsedExternalMarks
        totalMarks := some total
        grade := some (calculateGrade total)
        createdAt := now
        updatedAt := now }
    ({ db with marks := db.marks ++ [record] }, .ok record)

/-- Parsed PUT body of the marks route; every field optional. -/
structure MarksUpdateBody where
  studentId : Option Nat := none
  courseId : Option Nat := none
  semester : Option Nat := none
  internalMarks : Option ℤ := none
  externalMarks : Option ℤ := none
deriving DecidableEq, Repr

/-- PUT /api/marks?id=...: find the record, validate the provided
fields in source order, and recompute `totalMarks`/`grade` from the new
components exactly when `internalMarks` or `externalMarks` was provided
(absent stored components default to `0` via `|| 0`). -/
def updateMarks (db : DB) (recordId : Nat) (body : MarksUpdateBody) (now : Nat) :
    DB × Except MarksError MarksRecord :=
  match db.marks.find? (fun m => m.id = recordId) with
  | none => (db, .error .marksNotFound)
  | some current =>
    if body.studentId.any (fun sid => (db.students.find? (fun s => s.id = sid)).isNone) then
      (db, .error .studentNotFound)
    else if body.courseId.any (fun cid => (db.courses.find? (fun c => c.id = cid)).isNone) then
      (db, .error .courseNotFound)
    else if body.internalMarks.any (fun v => decide (v < 0 ∨ 100 < v)) then
      (db, .error .invalidInternalMarks)
    else if body.externalMarks.any (fun v => decide (v < 0 ∨ 100 < v)) then
      (db, .error .invalidExternalMarks)
    else
      let newInternal : Option ℤ :=
        match body.internalMarks with
        | some v => some v
        | none => current.internalMarks
      let newExternal : Option ℤ :=
        match body.externalMarks with
        | some v => some v
        | none => current.externalMarks
      let derived : Option ℤ × Option String :=
        if body.internalMarks.isSome || body.externalMarks.isSome then
          let t := calculateTotalMarks (newInternal.getD 0) (newExternal.getD 0)
          (some t, some (calculateGrade t))
        else (current.totalMarks, current.grade)
      let updated : MarksRecord :=
        { current with
          updatedAt := now
          studentId := body.studentId.getD current.studentId
          courseId := body.courseId.getD current.courseId
          semester := body.semester.getD current.semester
          internalMarks := newInternal
          externalMarks := newExternal
          totalMarks := derived.1
          grade := derived.2 }
      ({ db with
          marks := db.marks.map fun m => if m.id = recordId then updated else m },
        .ok updated)

/-! ## Dashboard aggregation (GET /api/dashboard) -/

/-- The `enrollmentStats` section of the dashboard response. -/
structure EnrollmentStats where
  total : Nat
  active : Nat
  completionRate : ℤ
deriving DecidableEq, Repr

/-- The `attendanceStats` section of the dashboard response. -/
structure AttendanceStats where
  totalRecords : Nat
  presentRecords : Nat
  overallPercentage : ℤ
deriving DecidableEq, Repr

/-- Sort key of the recent-payments query: `ORDER BY fees.paid_date
DESC` (a missing date sorts last under the descending order). -/
def feePaidKey (x : Fee × Student) : Nat := x.1.paidDate.getD 0

/-- Descending order on the paid date, the order of the
recent-fee-payments query. -/
def feePayOrder (a b : Fee × Student) : Prop := feePaidKey b ≤ feePaidKey a

instance : DecidableRel feePayOrder := fun _ _ => Nat.decLe _ _

instance : IsTotal (Fee × Student) feePayOrder :=
  ⟨fun a b => le_total (feePaidKey b) (feePaidKey a)⟩

instance : IsTrans (Fee × Student) feePayOrder :=
  ⟨fun _ _ _ h1 h2 => le_trans h2 h1⟩

/-- Sort key of the recent-enrollments query: `ORDER BY
enrollments.created_at DESC`. -/
def enrollCreatedKey (x : Enrollment × Student × Course) : Nat := x.1.createdAt

/-- Descending order on the enrollment creation time. -/
def enrollOrder (a b : Enrollment × Student × Course) : Prop :=
  enrollCreatedKey b ≤ enrollCreatedKey a

instance : DecidableRel enrollOrder := fun _ _ => Nat.decLe _ _

instance : IsTotal (Enrollment × Student × Course) enrollOrder :=
  ⟨fun a b => le_total (enrollCreatedKey b) (enrollCreatedKey a)⟩

instance : IsTrans (Enrollment × Student × Course) enrollOrder :=
  ⟨fun _ _ _ h1 h2 => le_trans h2 h1⟩

/-- Recent enrollments before projection: inner join of enrollments
with students and courses, ordered by creation time descending,
limit 10. -/
def recentEnrollmentsRaw (db : DB) : List (Enrollment × Student × Course) :=
  (List.insertionSort enrollOrder
    (db.enrollments.filterMap fun e =>
      match db.students.find? (fun s => s.id = e.studentId),
            db.courses.find? (fun c => c.id = e.courseId) with
      | some s, some c => some (e, s, c)
      | _, _ => none)).take 10

/-- Row shape of the `recentActivities.enrollments` feed. -/
structure EnrollmentFeedEntry where
  id : Nat
  studentName : String
  courseName : String
  enrollmentDate : Nat
  status : String
deriving DecidableEq, Repr

/-- The `recentActivities.enrollments` feed of the dashboard. -/
def recentEnrollments (db : DB) : List EnrollmentFeedEntry :=
  (recentEnrollmentsRaw db).map fun x =>
    { id := x.1.id
      studentName := x.2.1.name
      courseName := x.2.2.title
      enrollmentDate := x.1.enrollmentDate
      status := x.1.status }

/-- Recent fee payments before projection: paid fees inner-joined with
students, ordered by paid date descending, limit 10. -/
def recentFeePaymentsRaw (db : DB) : List (Fee × Student) :=
  (List.insertionSort feePayOrder
    ((db.fees.filter fun f => f.status = FeeStatus.paid).filterMap fun f =>
      (db.students.find? (fun s => s.id = f.studentId)).map fun s => (f, s))).take 10

/-- Row shape of the `recentActivities.feePayments` feed. -/
structure FeeFeedEntry where
  id : Nat
  studentName : String
  amount : ℚ
  feeType : String
  paidDate : Option Nat
  status : FeeStatus
deriving DecidableEq, Repr

/-- The `recentActivities.feePayments` feed of the dashboard. -/
def recentFeePayments (db : DB) : List FeeFeedEntry :=
  (recentFeePaymentsRaw db).map fun x =>
    { id := x.1.id
      studentName := x.2.name
      amount := x.1.amount
      feeType := x.1.feeType
      paidDate := x.1.paidDate
      status := x.1.status }

/-- The sections of the dashboard response the claims are about.  The
handler also computes overview counts, distribution breakdowns, fee
sums, the monthly trend and performance metrics, which no claim
references. -/
structure DashboardStats where
  enrollmentStats : EnrollmentStats
  attendanceStats : AttendanceStats
  recentEnrollments : List EnrollmentFeedEntry
  recentFeePayments : List FeeFeedEntry
  generatedAt : Nat
deriving DecidableEq, Repr

/-- GET /api/dashboard restricted to the claim-relevant sections.
Counts are `COUNT(*)` queries over the tables, the rates are the
source's guarded `Math.round` expressions. -/
def dashboardStats (db : DB) (now : Nat) : DashboardStats :=
  let totalEnrollments := db.enrollments.length
  let activeEnrollments := (db.enrollments.filter fun e => e.status = "active").length
  let totalAttendanceRecords := db.attendance.length
  let presentRecords := (db.attendance.filter fun a => a.status = "present").length
  { enrollmentStats :=
      { total := totalEnrollments
        active := activeEnrollments
        completionRate :=
          if 0 < totalEnrollments then
            jsRound ((activeEnrollments : ℚ) / (totalEnrollments : ℚ) * 100)
          else 0 }
    attendanceStats :=
      { totalRecords := totalAttendanceRecords
        presentRecords := presentRecords
        overallPercentage :=
          if 0 < totalAttendanceRecords then
            jsRound ((presentRecords : ℚ) / (totalAttendanceRecords : ℚ) * 100)
          else 0 }
    recentEnrollments := recentEnrollments db
    recentFeePayments := recentFeePayments db
    generatedAt := now }

/-! ## Interleaving model of concurrent payment requests

The payment handler issues three database statements: the joined
`SELECT`, the fee `UPDATE ... RETURNING`, and the student `UPDATE`.
Each statement is atomic in SQLite, but nothing serializes the triple,
so two requests against the same fee may interleave at statement
granularity.  A process is a program counter plus the snapshot it read;
a schedule is the list telling which process runs its next statement. -/

/-- Program counter of one in-flight payment request. -/
inductive Phase
  | start
  | ready (fee : Fee) (student : Student)
  | wroteFee (student : Student)
  | done
  | failed (e : PaymentError)
deriving DecidableEq, Repr

/-- Run the next atomic statement of one request: the validated read,
the fee update (with the source's empty-`returning` guard), or the
balance write computed from the snapshot student row. -/
def procStep (feeId : Nat) (body : PaymentBody) (now : Nat) :
    DB × Phase → DB × Phase
  | (db, .start) =>
    match validatePaymentBody body with
    | some e => (db, .failed e)
    | none =>
      match readAndValidate db feeId body with
      | .error e => (db, .failed e)
      | .ok (fee, student) => (db, .ready fee student)
  | (db, .ready _fee student) =>
    let db1 := writeFeePaid db feeId now
    if (db1.fees.filter fun f => f.id = feeId) = [] then (db1, .failed .updateFailed)
    else (db1, .wroteFee student)
  | (db, .wroteFee student) =>
    ((writeStudentBalance db student body.amount_paid.toNumber now).1, .done)
  | (db, ph) => (db, ph)

/-- Two payment requests for the same fee, with the shared database and
each request's program counter. -/
structure ConcState where
  db : DB
  p1 : Phase
  p2 : Phase
deriving DecidableEq, Repr

/-- One scheduler step: `true` advances the first request, `false` the
second. -/
def concStep (feeId : Nat) (b1 b2 : PaymentBody) (t1 t2 : Nat)
    (s : ConcState) (who : Bool) : ConcState :=
  if who then
    let r := procStep feeId b1 t1 (s.db, s.p1)
    { s with db := r.1, p1 := r.2 }
  else
    let r := procStep feeId b2 t2 (s.db, s.p2)
    { s with db := r.1, p2 := r.2 }

/-- Run a whole schedule from an initial state. -/
def concRun (feeId : Nat) (b1 b2 : PaymentBody) (t1 t2 : Nat)
    (sched : List Bool) (init : ConcState) : ConcState :=
  sched.foldl (concStep feeId b1 b2 t1 t2) init

/-! ## Concrete scenario data

Rows realising the scenarios of the spec: student 7 with balance
1200.00 and fee 1 of 500.00 in status `pending`. -/

/-- Student 7 of the spec scenario, balance 1200.00. -/
def studentSample : Student :=
  { id := 7, name := "Asha Rao", balance := some (.finite 1200)
    status := "active", updatedAt := 1 }

/-- Fee 1 of the spec scenario: 500.00 pending, owned by student 7. -/
def feeSample : Fee :=
  { id := 1, studentId := 7, amount := 500, dueDate := 30, paidDate := none
    status := .pending, feeType := "tuition", createdAt := 1, updatedAt := 1 }

/-- Store holding exactly the scenario student and fee. -/
def dbSample : DB :=
  { students := [studentSample], courses := [], fees := [feeSample]
    marks := [], attendance := [], enrollments := [] }

/-- Payment request of the spec scenario:
`recordPayment(1, 500.00, "cash", "TXN-001")`. -/
def bodySample : PaymentBody :=
  { amount_paid := .num (.finite 500), payment_method := .str "cash"
    transaction_id := .str "TXN-001", hasUserId := false }

/-! ## Helper lemmas -/

/-- Finding by id commutes with mapping an id-preserving row function. -/
lemma find?_map_id_eq (l : List Fee) (feeId : Nat) (g : Fee → Fee)
    (hg : ∀ f, (g f).id = f.id) :
    (l.map g).find? (fun f => f.id = feeId) = (l.find? (fun f => f.id = feeId)).map g := by
  induction l with
  | nil => rfl
  | cons a l ih =>
    by_cases h : a.id = feeId
    · simp [List.find?_cons, hg, h]
    · simp [List.find?_cons, hg, h, ih]

/-- The rows returned by an update hitting an existing id are nonempty. -/
lemma filter_map_id_ne_nil (l : List Fee) (feeId : Nat) (g : Fee → Fee)
    (hg : ∀ f, (g f).id = f.id) (fee : Fee) (hmem : fee ∈ l) (hid : fee.id = feeId) :
    (l.map g).filter (fun f => f.id = feeId) ≠ [] := by
  apply List.ne_nil_of_mem (a := g fee)
  exact List.mem_filter.mpr ⟨List.mem_map_of_mem g hmem, by simp [hg, hid]⟩

/-- The conditional row update of the payment handler preserves ids. -/
lemma paidUpdate_id (feeId now : Nat) (f : Fee) :
    ((if f.id = feeId then { f with status := .paid, paidDate := some now, updatedAt := now }
      else f) : Fee).id = f.id := by
  by_cases h : f.id = feeId <;> simp [h]

/-- On a student row holding a finite balance, the balance write stores
exactly the JS difference of that balance and the paid amount. -/
lemma writeStudentBalance_finite (db : DB) (student : Student) (bal : ℚ)
    (hbal : student.balance = some (.finite bal)) (amt : JsNumber) (now : Nat) :
    writeStudentBalance db student amt now =
      ({ db with
          students := db.students.map fun s =>
            if s.id = student.id then
              { s with balance := some (jsSub (.finite bal) amt), updatedAt := now }
            else s },
        .finite bal, jsSub (.finite bal) amt) := by
  unfold writeStudentBalance
  rw [hbal]
  by_cases h : bal = 0
  · subst h; simp [JsNumber.truthy]
  · simp [JsNumber.truthy, h]

/-- Reduction of the payment handler once the body has validated, the
fee and its student were found, and the fee is payable: everything that
remains is the amount-tolerance test, failing into `amountMismatch` with
both values and succeeding into the two writes. -/
lemma recordPayment_eq_of_valid (db : DB) (feeId : Nat) (body : PaymentBody) (now : Nat)
    (fee : Fee) (student : Student)
    (hb : validatePaymentBody body = none)
    (hf : db.fees.find? (fun f => f.id = feeId) = some fee)
    (hs : db.students.find? (fun s => s.id = fee.studentId) = some student)
    (hst : fee.status = .pending ∨ fee.status = .overdue) :
    recordPayment db feeId body now =
      if jsGt (jsAbs (jsSub body.amount_paid.toNumber (.finite fee.amount)))
          (.finite (1 / 100)) then
        (db, .error (.amountMismatch body.amount_paid.toNumber fee.amount))
      else
        ((writeStudentBalance (writeFeePaid db feeId now) student
            body.amount_paid.toNumber now).1,
          .ok
            { feeId := feeId
              studentId := student.id
              studentName := student.name
              amountPaid := body.amount_paid.toNumber
              previousBalance := (writeStudentBalance (writeFeePaid db feeId now) student
                body.amount_paid.toNumber now).2.1
              newBalance := (writeStudentBalance (writeFeePaid db feeId now) student
                body.amount_paid.toNumber now).2.2
              processedAt := now }) := by
  have hmem : fee ∈ db.fees := List.mem_of_find?_eq_some hf
  have hid : fee.id = feeId := by simpa using List.find?_some hf
  have hnp : ¬ fee.status = .paid := by rcases hst with h | h <;> simp [h]
  have hns : ¬ (fee.status ≠ .pending ∧ fee.status ≠ .overdue) := by
    rcases hst with h | h <;> simp [h]
  unfold recordPayment readAndValidate
  simp only [hb, hf, hs]
  rw [if_neg hnp, if_neg hns]
  by_cases htol :
      jsGt (jsAbs (jsSub body.amount_paid.toNumber (.finite fee.amount)))
        (.finite (1 / 100)) = true
  · rw [if_pos htol, if_pos htol]
  · rw [if_neg htol, if_neg htol]
    have hne : ((writeFeePaid db feeId now).fees.filter fun f => f.id = feeId) ≠ [] := by
      exact filter_map_id_ne_nil db.fees feeId _ (paidUpdate_id feeId now) fee hmem hid
    simp only [if_neg hne]

/-! ## Claim theorems -/

/-- C1: for every pending or overdue fee whose owning student exists,
and every payment body that passes input validation with a positive
amount within 0.01 of the fee amount, `recordPayment` succeeds; the fee
becomes `paid` with `paidDate` and `updatedAt` set to now, the owning
student's balance becomes its prior value minus the amount paid, and
the response reports the previous and the new balance. -/
theorem recordPayment_success_spec
    (db : DB) (feeId : Nat) (body : PaymentBody) (now : Nat)
    (fee : Fee) (student : Student) (a bal : ℚ)
    (hb : validatePaymentBody body = none)
    (hf : db.fees.find? (fun f => f.id = feeId) = some fee)
    (hs : db.students.find? (fun s => s.id = fee.studentId) = some student)
    (hst : fee.status = .pending ∨ fee.status = .overdue)
    (ha : body.amount_paid = .num (.finite a))
    (htol : |a - fee.amount| ≤ 1 / 100)
    (hbal : student.balance = some (.finite bal)) :
    recordPayment db feeId body now =
      ({ db with
          fees := db.fees.map fun f =>
            if f.id = feeId then
              { f with status := .paid, paidDate := some now, updatedAt := now }
            else f
          students := db.students.map fun s =>
            if s.id = student.id then
              { s with balance := some (.finite (bal - a)), updatedAt := now }
            else s },
        .ok
          { feeId := feeId
            studentId := student.id
            studentName := student.name
            amountPaid := .finite a
            previousBalance := .finite bal
            newBalance := .finite (bal - a)
            processedAt := now }) := by
  have hnum : body.amount_paid.toNumber = .finite a := by rw [ha]; rfl
  rw [recordPayment_eq_of_valid db feeId body now fee student hb hf hs hst, hnum]
  have hcond :
      ¬ (jsGt (jsAbs (jsSub (JsNumber.finite a) (.finite fee.amount)))
        (.finite (1 / 100)) = true) := by
    simp only [jsSub, jsAbs, jsGt, decide_eq_true_eq]
    exact not_lt.mpr htol
  rw [if_neg hcond]
  rw [writeStudentBalance_finite _ student bal hbal (.finite a) now]
  simp [writeFeePaid, jsSub]

/-- C1 witness: the spec scenario — fee 1 of 500.00 pending, student 7
with balance 1200.00, `recordPayment(1, 500.00, "cash", "TXN-001")` —
marks the fee paid and leaves balance 700.00, reported in the
response. -/
theorem recordPayment_success_spec_witness :
    recordPayment dbSample 1 bodySample 5 =
      ({ dbSample with
          fees := dbSample.fees.map fun f =>
            if f.id = 1 then
              { f with status := .paid, paidDate := some 5, updatedAt := 5 }
            else f
          students := dbSample.students.map fun s =>
            if s.id = studentSample.id then
              { s with balance := some (.finite (1200 - 500)), updatedAt := 5 }
            else s },
        .ok
          { feeId := 1
            studentId := studentSample.id
            studentName := studentSample.name
            amountPaid := .finite 500
            previousBalance := .finite 1200
            newBalance := .finite (1200 - 500)
            processedAt := 5 }) :=
  recordPayment_success_spec dbSample 1 bodySample 5 feeSample studentSample 500 1200
    rfl rfl rfl (Or.inl rfl) rfl (by norm_num [feeSample]) rfl

/-- Already-paid rows of the replay scenario: the fee of `dbSample`
after the successful payment, balance already down to 700.00. -/
def studentPaid : Student :=
  { studentSample with balance := some (.finite 700), updatedAt := 2 }

/-- The scenario fee once paid. -/
def feePaid : Fee := { feeSample with status := .paid, paidDate := some 2, updatedAt := 2 }

/-- Store after the successful payment of the scenario. -/
def dbPaid : DB := { dbSample with students := [studentPaid], fees := [feePaid] }

/-- C2 counterexample: the claim quantifies over any arguments, but on
an already-paid fee a request with an invalid amount fails with the
input-validation error, not with Conflict — body validation runs before
the fee is even looked up. -/
theorem alreadyPaid_any_args_counterexample :
    recordPayment dbPaid 1
      { amount_paid := .num (.finite 0), payment_method := .str "cash"
        transaction_id := .str "TXN-002", hasUserId := false } 6 =
      (dbPaid, .error .invalidAmount) ∧
    PaymentError.invalidAmount ≠ PaymentError.feeAlreadyPaid :=
  ⟨rfl, by decide⟩

/-- C2 amended: for every fee already in status `paid` whose owning
student exists, `recordPayment` with arguments that pass input
validation fails with Conflict (`FEE_ALREADY_PAID`) and returns the
store unchanged, so the student's balance still reflects exactly one
deduction. -/
theorem alreadyPaid_conflict
    (db : DB) (feeId : Nat) (body : PaymentBody) (now : Nat) (fee : Fee) (student : Student)
    (hb : validatePaymentBody body = none)
    (hf : db.fees.find? (fun f => f.id = feeId) = some fee)
    (hs : db.students.find? (fun s => s.id = fee.studentId) = some student)
    (hp : fee.status = .paid) :
    recordPayment db feeId body now = (db, .error .feeAlreadyPaid) := by
  unfold recordPayment readAndValidate
  simp only [hb, hf, hs]
  rw [if_pos hp]

/-- C2 witness: replaying the scenario payment with `TXN-002` on the
paid fee fails with Conflict and leaves the store (balance 700.00)
unchanged. -/
theorem alreadyPaid_conflict_witness :
    recordPayment dbPaid 1 { bodySample with transaction_id := .str "TXN-002" } 6 =
      (dbPaid, .error .feeAlreadyPaid) :=
  alreadyPaid_conflict dbPaid 1 _ 6 feePaid studentPaid rfl rfl rfl rfl

/-- C5: the claim says a non-finite `amountPaid` is rejected with
InvalidInput and mutates nothing, but `NaN` passes the handler's
`amount_paid <= 0` check (false for `NaN`) and the tolerance check
(`Math.abs(NaN - amount) > 0.01` is false), so the payment succeeds:
the fee is marked paid and the student balance is stored as `NaN`. -/
theorem nan_amount_reaches_success :
    recordPayment dbSample 1
      { amount_paid := .num .nan, payment_method := .str "cash"
        transaction_id := .str "TXN-003", hasUserId := false } 5 =
      ({ dbSample with
          fees := [{ feeSample with status := .paid, paidDate := some 5, updatedAt := 5 }]
          students := [{ studentSample with balance := some .nan, updatedAt := 5 }] },
        .ok
          { feeId := 1
            studentId := 7
            studentName := "Asha Rao"
            amountPaid := .nan
            previousBalance := .finite 1200
            newBalance := .nan
            processedAt := 5 }) := rfl

/-- C3: on a payable fee with otherwise valid inputs and a finite
amount, the handler fails with `amountMismatch` — carrying both the
amount paid and the fee amount — exactly when the absolute difference
exceeds 0.01, in which case the store is returned unchanged; at a
difference of at most 0.01 the tolerance check passes and the payment
succeeds. -/
theorem amount_tolerance_spec
    (db : DB) (feeId : Nat) (body : PaymentBody) (now : Nat)
    (fee : Fee) (student : Student) (a : ℚ)
    (hb : validatePaymentBody body = none)
    (hf : db.fees.find? (fun f => f.id = feeId) = some fee)
    (hs : db.students.find? (fun s => s.id = fee.studentId) = some student)
    (hst : fee.status = .pending ∨ fee.status = .overdue)
    (ha : body.amount_paid = .num (.finite a)) :
    (1 / 100 < |a - fee.amount| →
      recordPayment db feeId body now =
        (db, .error (.amountMismatch (.finite a) fee.amount))) ∧
    (|a - fee.amount| ≤ 1 / 100 →
      ∃ db2 resp, recordPayment db feeId body now = (db2, .ok resp)) ∧
    ((recordPayment db feeId body now).2 =
        .error (.amountMismatch (.finite a) fee.amount) ↔
      1 / 100 < |a - fee.amount|) := by
  have hnum : body.amount_paid.toNumber = .finite a := by rw [ha]; rfl
  have hred := recordPayment_eq_of_valid db feeId body now fee student hb hf hs hst
  rw [hnum] at hred
  have hmis : 1 / 100 < |a - fee.amount| →
      recordPayment db feeId body now =
        (db, .error (.amountMismatch (.finite a) fee.amount)) := by
    intro hgt
    have hcond : jsGt (jsAbs (jsSub (JsNumber.finite a) (.finite fee.amount)))
        (.finite (1 / 100)) = true := by
      simp only [jsSub, jsAbs, jsGt, decide_eq_true_eq]
      exact hgt
    rw [hred, if_pos hcond]
  have hok : |a - fee.amount| ≤ 1 / 100 →
      ∃ db2 resp, recordPayment db feeId body now = (db2, .ok resp) := by
    intro hle
    have hcond : ¬ (jsGt (jsAbs (jsSub (JsNumber.finite a) (.finite fee.amount)))
        (.finite (1 / 100)) = true) := by
      simp only [jsSub, jsAbs, jsGt, decide_eq_true_eq]
      exact not_lt.mpr hle
    rw [hred, if_neg hcond]
    exact ⟨_, _, rfl⟩
  refine ⟨hmis, hok, ?_, ?_⟩
  · intro h
    by_contra hnlt
    obtain ⟨db2, resp, heq⟩ := hok (not_lt.mp hnlt)
    rw [heq] at h
    exact Except.noConfusion h
  · intro hgt
    rw [hmis hgt]

/-- Fee of the mismatch scenario, amount 300.00 pending. -/
def fee300 : Fee := { feeSample with id := 3, amount := 300 }

/-- Store of the mismatch scenario. -/
def db300 : DB := { dbSample with fees := [fee300] }

/-- C3 witness: paying 250.00 against a 300.00 fee fails with
`amountMismatch` reporting both values, and the store is returned
unchanged. -/
theorem amount_tolerance_spec_witness :
    recordPayment db300 3 { bodySample with amount_paid := .num (.finite 250) } 6 =
      (db300, .error (.amountMismatch (.finite 250) 300)) :=
  (amount_tolerance_spec db300 3 { bodySample with amount_paid := .num (.finite 250) } 6
    fee300 studentSample 250 rfl rfl rfl (Or.inl rfl) rfl).1 (by norm_num [fee300, feeSample])

/-- C4 counterexample: with a nonexistent `feeId` and an invalid
amount, the handler reports the input-validation error, not NotFound —
so fee existence is not the first check. -/
theorem check_order_counterexample :
    recordPayment dbSample 999
      { amount_paid := .num (.finite 0), payment_method := .str "cash"
        transaction_id := .str "TXN-005", hasUserId := false } 6 =
      (dbSample, .error .invalidAmount) ∧
    dbSample.fees.find? (fun f => f.id = 999) = none ∧
    PaymentError.invalidAmount ≠ PaymentError.feeNotFound :=
  ⟨rfl, rfl, by decide⟩

/-- C4 amended: the handler's checks run in this order — body
validation (`userId` rejection, field presence, string fields, amount
positivity) first, then fee existence, then student existence, then the
status and tolerance checks — so any body-validation error is returned
for every store, and NotFound is returned exactly when the body is
valid and the fee (or then the student) is missing. -/
theorem check_order_spec :
    (∀ (db : DB) (feeId : Nat) (body : PaymentBody) (now : Nat) (e : PaymentError),
      validatePaymentBody body = some e →
      recordPayment db feeId body now = (db, .error e)) ∧
    (∀ (db : DB) (feeId : Nat) (body : PaymentBody) (now : Nat),
      validatePaymentBody body = none →
      db.fees.find? (fun f => f.id = feeId) = none →
      recordPayment db feeId body now = (db, .error .feeNotFound)) ∧
    (∀ (db : DB) (feeId : Nat) (body : PaymentBody) (now : Nat) (fee : Fee),
      validatePaymentBody body = none →
      db.fees.find? (fun f => f.id = feeId) = some fee →
      db.students.find? (fun s => s.id = fee.studentId) = none →
      recordPayment db feeId body now = (db, .error .studentNotFound)) := by
  refine ⟨?_, ?_, ?_⟩
  · intro db feeId body now e hv
    unfold recordPayment
    rw [hv]
  · intro db feeId body now hv hf
    unfold recordPayment readAndValidate
    simp only [hv, hf]
  · intro db feeId body now fee hv hf hs
    unfold recordPayment readAndValidate
    simp only [hv, hf, hs]

/-- C4 witness: a request with amount 0 against the missing fee 999 is
answered with the amount-validation error before the store is
consulted. -/
theorem check_order_spec_witness :
    recordPayment dbSample 999
      { amount_paid := .num (.finite 0), payment_method := .str "cash"
        transaction_id := .str "TXN-004", hasUserId := false } 6 =
      (dbSample, .error .invalidAmount) :=
  check_order_spec.1 dbSample 999 _ 6 .invalidAmount rfl

/-- Inversion of the read-and-validate phase: reaching the writes means
the fee was found, its student was found, and the fee was payable. -/
lemma readAndValidate_ok_inv (db : DB) (feeId : Nat) (body : PaymentBody)
    (fee : Fee) (student : Student)
    (h : readAndValidate db feeId body = .ok (fee, student)) :
    db.fees.find? (fun f => f.id = feeId) = some fee ∧
    db.students.find? (fun s => s.id = fee.studentId) = some student ∧
    (fee.status = .pending ∨ fee.status = .overdue) := by
  unfold readAndValidate at h
  cases hf : db.fees.find? (fun f => f.id = feeId) with
  | none => simp only [hf] at h; exact Except.noConfusion h
  | some fee1 =>
    simp only [hf] at h
    cases hs : db.students.find? (fun s => s.id = fee1.studentId) with
    | none => simp only [hs] at h; exact Except.noConfusion h
    | some st1 =>
      simp only [hs] at h
      by_cases hp : fee1.status = .paid
      · rw [if_pos hp] at h; exact Except.noConfusion h
      · rw [if_neg hp] at h
        by_cases hq : fee1.status ≠ .pending ∧ fee1.status ≠ .overdue
        · rw [if_pos hq] at h; exact Except.noConfusion h
        · rw [if_neg hq] at h
          by_cases ht : jsGt (jsAbs (jsSub body.amount_paid.toNumber
              (.finite fee1.amount))) (.finite (1 / 100)) = true
          · rw [if_pos ht] at h; exact Except.noConfusion h
          · rw [if_neg ht] at h
            injection h with h2
            obtain ⟨rfl, rfl⟩ := Prod.mk.injEq .. |>.mp h2
            have hpo : fee1.status = .pending ∨ fee1.status = .overdue := by
              rcases not_and_or.mp hq with h1 | h1
              · exact Or.inl (not_not.mp h1)
              · exact Or.inr (not_not.mp h1)
            exact ⟨rfl, hs, hpo⟩

/-- Inversion of a successful payment: the fee existed in a payable
status, its student existed, and afterwards the stored fee row is the
old row with status `paid`, `paidDate` and `updatedAt` set to now —
amount and every other column unchanged. -/
lemma recordPayment_ok_inv (db : DB) (feeId : Nat) (body : PaymentBody) (now : Nat)
    (db2 : DB) (resp : PaymentResponse)
    (h : recordPayment db feeId body now = (db2, .ok resp)) :
    ∃ fee student,
      db.fees.find? (fun f => f.id = feeId) = some fee ∧
      db.students.find? (fun s => s.id = fee.studentId) = some student ∧
      (fee.status = .pending ∨ fee.status = .overdue) ∧
      db2.fees.find? (fun f => f.id = feeId) =
        some { fee with status := .paid, paidDate := some now, updatedAt := now } := by
  unfold recordPayment at h
  cases hv : validatePaymentBody body with
  | some e =>
    simp only [hv] at h
    injection h with h1 h2
    exact Except.noConfusion h2
  | none =>
    simp only [hv] at h
    cases hr : readAndValidate db feeId body with
    | error e =>
      simp only [hr] at h
      injection h with h1 h2
      exact Except.noConfusion h2
    | ok pr =>
      obtain ⟨fee1, student1⟩ := pr
      obtain ⟨hf, hs, hst⟩ := readAndValidate_ok_inv db feeId body fee1 student1 hr
      have hid : fee1.id = feeId := by simpa using List.find?_some hf
      have hmem : fee1 ∈ db.fees := List.mem_of_find?_eq_some hf
      simp only [hr] at h
      by_cases hfe : ((writeFeePaid db feeId now).fees.filter fun f => f.id = feeId) = []
      · exact absurd hfe
          (filter_map_id_ne_nil db.fees feeId _ (paidUpdate_id feeId now) fee1 hmem hid)
      · rw [if_neg hfe] at h
        injection h with h1 h2
        refine ⟨fee1, student1, hf, hs, hst, ?_⟩
        have hfees : db2.fees = db.fees.map fun f =>
            if f.id = feeId then
              { f with status := .paid, paidDate := some now, updatedAt := now }
            else f := by
          rw [← h1]
          rfl
        rw [hfees, find?_map_id_eq db.fees feeId _ (paidUpdate_id feeId now), hf]
        simp [hid]

/-- C7 counterexample: the generic fee update endpoint mutates a fee in
status `paid`: one call moves its status back to `pending`, changes its
amount, and clears its `paidDate`. -/
theorem paid_fee_mutable_counterexample :
    feePaid.status = .paid ∧
    (updateFee dbPaid 1
      { studentId := none, amount := some 999, dueDate := none, feeType := none
        status := some "pending", paidDate := some none } 9).2 =
      .ok { feePaid with
            status := .pending
            amount := 999
            paidDate := none
            updatedAt := 9 } :=
  ⟨rfl, rfl⟩

/-- C7 amended: the payment endpoint on its own respects the invariant
— a successful `recordPayment` starts from a fee in status `pending` or
`overdue` (never from `paid`), and afterwards the fee is `paid` with
its amount unchanged and `paidDate` set; the generic fee update
endpoint, however, is not restricted and can rewrite a paid fee (see
the counterexample), so the invariant is not enforced system-wide. -/
theorem payment_forward_transition_only
    (db : DB) (feeId : Nat) (body : PaymentBody) (now : Nat)
    (db2 : DB) (resp : PaymentResponse)
    (h : recordPayment db feeId body now = (db2, .ok resp)) :
    ((db.fees.find? (fun f => f.id = feeId)).map Fee.status = some .pending ∨
      (db.fees.find? (fun f => f.id = feeId)).map Fee.status = some .overdue) ∧
    (db2.fees.find? (fun f => f.id = feeId)).map Fee.status = some .paid ∧
    (db2.fees.find? (fun f => f.id = feeId)).map Fee.amount =
      (db.fees.find? (fun f => f.id = feeId)).map Fee.amount ∧
    (db2.fees.find? (fun f => f.id = feeId)).map Fee.paidDate = some (some now) := by
  obtain ⟨fee, student, hf, hs, hst, hupd⟩ :=
    recordPayment_ok_inv db feeId body now db2 resp h
  rw [hf, hupd]
  refine ⟨?_, rfl, rfl, rfl⟩
  rcases hst with h1 | h1
  · exact Or.inl (by simp [h1])
  · exact Or.inr (by simp [h1])

/-- Store after the witness payment: fee 1 paid at time 5, balance
1200 − 500 = 700.00. -/
def dbSettled : DB :=
  { dbSample with
    fees := [{ feeSample with status := .paid, paidDate := some 5, updatedAt := 5 }]
    students :=
      [{ studentSample with balance := some (.finite (1200 - 500)), updatedAt := 5 }] }

/-- Receipt of the witness payment. -/
def respSettled : PaymentResponse :=
  { feeId := 1, studentId := 7, studentName := "Asha Rao", amountPaid := .finite 500
    previousBalance := .finite 1200, newBalance := .finite (1200 - 500), processedAt := 5 }

/-- The scenario payment evaluates to the settled store and receipt. -/
lemma scenario_payment_eq :
    recordPayment dbSample 1 bodySample 5 = (dbSettled, .ok respSettled) := by
  rw [recordPayment_eq_of_valid dbSample 1 bodySample 5 feeSample studentSample rfl rfl rfl
    (Or.inl rfl)]
  have h3 : ¬ (jsGt (jsAbs (jsSub bodySample.amount_paid.toNumber
      (.finite feeSample.amount))) (.finite (1 / 100)) = true) := by
    have h4 : bodySample.amount_paid.toNumber = JsNumber.finite 500 := rfl
    have h5 : feeSample.amount = 500 := rfl
    rw [h4, h5]
    simp only [jsSub, jsAbs, jsGt, decide_eq_true_eq]
    norm_num
  rw [if_neg h3]
  rfl

/-- C7 witness: the scenario payment transitions fee 1 from `pending`
to `paid` with its amount intact and `paidDate` set. -/
theorem payment_forward_transition_only_witness :
    ((dbSample.fees.find? (fun f => f.id = 1)).map Fee.status = some .pending ∨
      (dbSample.fees.find? (fun f => f.id = 1)).map Fee.status = some .overdue) ∧
    (dbSettled.fees.find? (fun f => f.id = 1)).map Fee.status = some .paid ∧
    (dbSettled.fees.find? (fun f => f.id = 1)).map Fee.amount =
      (dbSample.fees.find? (fun f => f.id = 1)).map Fee.amount ∧
    (dbSettled.fees.find? (fun f => f.id = 1)).map Fee.paidDate = some (some 5) :=
  payment_forward_transition_only dbSample 1 bodySample 5 dbSettled respSettled
    scenario_payment_eq

/-- Second concurrent payment request, transaction `TXN-006`. -/
def bodySample2 : PaymentBody := { bodySample with transaction_id := .str "TXN-006" }

/-- The scenario read phase on the initial store: for any body paying
500, the joined select observes the pending fee and its student. -/
lemma rv_sample (body : PaymentBody) (ha : body.amount_paid = .num (.finite 500)) :
    readAndValidate dbSample 1 body = .ok (feeSample, studentSample) := by
  unfold readAndValidate
  have hf : dbSample.fees.find? (fun f => f.id = 1) = some feeSample := rfl
  have hs : dbSample.students.find? (fun s => s.id = feeSample.studentId) =
      some studentSample := rfl
  simp only [hf, hs]
  rw [if_neg (by decide : ¬ (feeSample.status = FeeStatus.paid)),
    if_neg (by decide :
      ¬ (feeSample.status ≠ FeeStatus.pending ∧ feeSample.status ≠ FeeStatus.overdue)),
    ha]
  have h3 : ¬ (jsGt (jsAbs (jsSub (JsValue.num (JsNumber.finite 500)).toNumber
      (.finite feeSample.amount))) (.finite (1 / 100)) = true) := by
    have h4 : (JsValue.num (JsNumber.finite 500)).toNumber = JsNumber.finite 500 := rfl
    have h5 : feeSample.amount = 500 := rfl
    rw [h4, h5]
    simp only [jsSub, jsAbs, jsGt, decide_eq_true_eq]
    norm_num
  rw [if_neg h3]

/-- One read step of a scenario payment request on the initial store. -/
lemma proc_read_sample (body : PaymentBody) (t : Nat)
    (hv : validatePaymentBody body = none)
    (ha : body.amount_paid = .num (.finite 500)) :
    procStep 1 body t (dbSample, .start) = (dbSample, .ready feeSample studentSample) := by
  simp only [procStep, hv, rv_sample body ha]

/-- C9: under the schedule where both requests run their joined
`SELECT` before either `UPDATE`, both requests observe the payable
status and both finish successfully — the claim that exactly one
succeeds and the other observes Conflict fails for the unguarded
check-then-write implementation.  (The balance is written from each
request's snapshot, so it ends at 1200 − 500 = 700.00, but two success
receipts are issued for one fee.) -/
theorem concurrent_double_success :
    concRun 1 bodySample bodySample2 10 11 [true, false, true, true, false, false]
      { db := dbSample, p1 := .start, p2 := .start } =
      { db := { dbSample with
          fees := [{ feeSample with status := .paid, paidDate := some 11, updatedAt := 11 }]
          students :=
            [{ studentSample with balance := some (.finite (1200 - 500)), updatedAt := 11 }] }
        p1 := .done
        p2 := .done } := by
  have s1 : concStep 1 bodySample bodySample2 10 11
      { db := dbSample, p1 := .start, p2 := .start } true =
      { db := dbSample, p1 := .ready feeSample studentSample, p2 := .start } := by
    simp [concStep, proc_read_sample bodySample 10 rfl rfl]
  have s2 : concStep 1 bodySample bodySample2 10 11
      { db := dbSample, p1 := .ready feeSample studentSample, p2 := .start } false =
      { db := dbSample, p1 := .ready feeSample studentSample
        p2 := .ready feeSample studentSample } := by
    simp [concStep, proc_read_sample bodySample2 11 rfl rfl]
  simp only [concRun, List.foldl]
  rw [s1, s2]
  rfl

/-- C6: the dashboard's enrollment completion rate and attendance
percentage are the rounded percentage ratios of the report's own
counts, and each is exactly 0 — a plain number, not an error — when the
respective total count is 0. -/
theorem dashboard_rates_spec (db : DB) (now : Nat) :
    ((dashboardStats db now).enrollmentStats.total ≠ 0 →
      (dashboardStats db now).enrollmentStats.completionRate =
        jsRound (((dashboardStats db now).enrollmentStats.active : ℚ) /
          ((dashboardStats db now).enrollmentStats.total : ℚ) * 100)) ∧
    ((dashboardStats db now).enrollmentStats.total = 0 →
      (dashboardStats db now).enrollmentStats.completionRate = 0) ∧
    ((dashboardStats db now).attendanceStats.totalRecords ≠ 0 →
      (dashboardStats db now).attendanceStats.overallPercentage =
        jsRound (((dashboardStats db now).attendanceStats.presentRecords : ℚ) /
          ((dashboardStats db now).attendanceStats.totalRecords : ℚ) * 100)) ∧
    ((dashboardStats db now).attendanceStats.totalRecords = 0 →
      (dashboardStats db now).attendanceStats.overallPercentage = 0) := by
  refine ⟨?_, ?_, ?_, ?_⟩ <;> intro h <;> simp only [dashboardStats] at h ⊢
  · rw [if_pos (Nat.pos_of_ne_zero h)]
  · rw [if_neg (by omega)]
  · rw [if_pos (Nat.pos_of_ne_zero h)]
  · rw [if_neg (by omega)]

/-- Active enrollment of the dashboard scenario. -/
def enrollA : Enrollment :=
  { id := 1, studentId := 7, courseId := 1, enrollmentDate := 1
    status := "active", createdAt := 1 }

/-- Dropped enrollment of the dashboard scenario. -/
def enrollB : Enrollment := { enrollA with id := 2, status := "dropped", createdAt := 2 }

/-- Store with two enrollments (one active) and zero attendance
records. -/
def dbDash : DB := { dbSample with enrollments := [enrollA, enrollB] }

/-- C6 witness: with one active enrollment out of two the completion
rate is the rounded ratio, and with zero attendance records the overall
percentage is exactly 0. -/
theorem dashboard_rates_spec_witness :
    (dashboardStats dbDash 0).enrollmentStats.completionRate =
      jsRound (((dashboardStats dbDash 0).enrollmentStats.active : ℚ) /
        ((dashboardStats dbDash 0).enrollmentStats.total : ℚ) * 100) ∧
    (dashboardStats dbDash 0).attendanceStats.overallPercentage = 0 :=
  ⟨(dashboard_rates_spec dbDash 0).1 (by decide),
   (dashboard_rates_spec dbDash 0).2.2.2 rfl⟩

/-- Stated from the spec's words (C8): both recent-activity feeds are
ordered by creation time descending. -/
def recentFeedsByCreation (db : DB) : Prop :=
  List.Pairwise (fun a b => enrollCreatedKey b ≤ enrollCreatedKey a)
    (recentEnrollmentsRaw db) ∧
  List.Pairwise (fun (a b : Fee × Student) => b.1.createdAt ≤ a.1.createdAt)
    (recentFeePaymentsRaw db)

/-- Paid fee created first but paid last. -/
def feeEarly : Fee :=
  { feeSample with
    id := 1
    status := .paid
    paidDate := some 10
    createdAt := 1
    updatedAt := 10 }

/-- Paid fee created second but paid first. -/
def feeLate : Fee :=
  { feeSample with
    id := 2
    status := .paid
    paidDate := some 5
    createdAt := 2
    updatedAt := 5 }

/-- Store whose paid-date order disagrees with its creation order. -/
def dbFeeds : DB := { dbSample with fees := [feeEarly, feeLate] }

/-- C8 counterexample: the payments feed lists the fee paid at 10
before the fee paid at 5, which is ascending — not descending — in
creation time, so the feeds are not both ordered by creation time. -/
theorem fee_feed_creation_order_counterexample :
    (recentFeePaymentsRaw dbFeeds).map (fun x => x.1.createdAt) = [1, 2] ∧
    ¬ recentFeedsByCreation dbFeeds :=
  ⟨rfl, by unfold recentFeedsByCreation; decide⟩

/-- C8 amended: the enrollments feed is the last 10 enrollments by
creation time descending, but the payments feed is the last 10 paid
fees ordered by `paidDate` descending (not by creation time); both
feeds join each row with the found student (and course) row, whose
names the projected entries carry. -/
theorem recent_feeds_order_spec (db : DB) :
    List.Pairwise feePayOrder (recentFeePaymentsRaw db) ∧
    List.Pairwise enrollOrder (recentEnrollmentsRaw db) ∧
    (recentFeePaymentsRaw db).length ≤ 10 ∧
    (recentEnrollmentsRaw db).length ≤ 10 ∧
    (∀ x ∈ recentFeePaymentsRaw db,
      x.1.status = .paid ∧
      db.students.find? (fun s => s.id = x.1.studentId) = some x.2) ∧
    (∀ x ∈ recentEnrollmentsRaw db,
      db.students.find? (fun s => s.id = x.1.studentId) = some x.2.1 ∧
      db.courses.find? (fun c => c.id = x.1.courseId) = some x.2.2) := by
  refine ⟨?_, ?_, ?_, ?_, ?_, ?_⟩
  · exact List.Pairwise.sublist (List.take_sublist 10 _)
      (List.sorted_insertionSort feePayOrder _)
  · exact List.Pairwise.sublist (List.take_sublist 10 _)
      (List.sorted_insertionSort enrollOrder _)
  · rw [recentFeePaymentsRaw, List.length_take]
    exact min_le_left _ _
  · rw [recentEnrollmentsRaw, List.length_take]
    exact min_le_left _ _
  · intro x hx
    have hx1 := List.mem_of_mem_take hx
    rw [List.mem_insertionSort] at hx1
    obtain ⟨f, hfmem, hmap⟩ := List.mem_filterMap.mp hx1
    cases hfind : db.students.find? (fun s => s.id = f.studentId) with
    | none => rw [hfind] at hmap; exact absurd hmap (by simp)
    | some st =>
      rw [hfind] at hmap
      have hpair : (f, st) = x := by
        have := Option.some.inj hmap
        simpa using this
      obtain rfl := hpair.symm
      refine ⟨?_, hfind⟩
      have := (List.mem_filter.mp hfmem).2
      simpa using this
  · intro x hx
    have hx1 := List.mem_of_mem_take hx
    rw [List.mem_insertionSort] at hx1
    obtain ⟨e, hemem, hmap⟩ := List.mem_filterMap.mp hx1
    cases hfs : db.students.find? (fun s => s.id = e.studentId) with
    | none => rw [hfs] at hmap; exact absurd hmap (by simp)
    | some st =>
      cases hfc : db.courses.find? (fun c => c.id = e.courseId) with
      | none => rw [hfs, hfc] at hmap; exact absurd hmap (by simp)
      | some c =>
        rw [hfs, hfc] at hmap
        have hpair : (e, st, c) = x := Option.some.inj hmap
        obtain rfl := hpair.symm
        exact ⟨hfs, hfc⟩

/-- C8 witness: on the two-fee store, the payments feed is sorted by
paid date descending, is within the limit, and its head entry is the
paid fee joined with its student row. -/
theorem recent_feeds_order_spec_witness :
    List.Pairwise feePayOrder (recentFeePaymentsRaw dbFeeds) ∧
    (recentFeePaymentsRaw dbFeeds).length ≤ 10 ∧
    ((feeEarly, studentSample).1.status = .paid ∧
      dbFeeds.students.find? (fun s => s.id = (feeEarly, studentSample).1.studentId) =
        some (feeEarly, studentSample).2) :=
  ⟨(recent_feeds_order_spec dbFeeds).1,
   (recent_feeds_order_spec dbFeeds).2.2.1,
   (recent_feeds_order_spec dbFeeds).2.2.2.2.1 (feeEarly, studentSample) (by decide)⟩

/-- Derivation invariant of a marks row: `totalMarks` is the sum of the
stored components (absent components counting 0) and `grade` is the
fixed-threshold grade of that sum. -/
def marksInvariant (m : MarksRecord) : Prop :=
  m.totalMarks =
    some (calculateTotalMarks (m.internalMarks.getD 0) (m.externalMarks.getD 0)) ∧
  m.grade =
    some (calculateGrade (calculateTotalMarks (m.internalMarks.getD 0) (m.externalMarks.getD 0)))

/-- A provided mark component that passed the range guard lies in
[0, 100] (an absent one defaults to 0). -/
lemma range_of_guard (o : Option ℤ)
    (h : ¬ (o.any (fun v => decide (v < 0 ∨ 100 < v)) = true)) :
    0 ≤ o.getD 0 ∧ o.getD 0 ≤ 100 := by
  cases o with
  | none => exact ⟨le_refl 0, by norm_num⟩
  | some v =>
    simp only [Option.any_some, decide_eq_true_eq] at h
    push_neg at h
    simpa using h

/-- C10: marks rows created through POST carry the caller's validated
components (each in [0, 100]), a derived `totalMarks` equal to their
sum (hence at most 200) and a derived threshold grade; the handler
ignores caller-supplied `totalMarks`/`grade`; PUT preserves the
derivation invariant; and the grade thresholds are 90/80/70/60 for
A/B/C/D with F below. -/
theorem marks_derivation_spec :
    (∀ (db : DB) (body : MarksBody) (newId now : Nat) (db2 : DB) (r : MarksRecord),
      createMarks db body newId now = (db2, .ok r) →
      r.internalMarks = some (body.internalMarks.getD 0) ∧
      r.externalMarks = some (body.externalMarks.getD 0) ∧
      marksInvariant r ∧
      0 ≤ body.internalMarks.getD 0 ∧ body.internalMarks.getD 0 ≤ 100 ∧
      0 ≤ body.externalMarks.getD 0 ∧ body.externalMarks.getD 0 ≤ 100 ∧
      r.totalMarks.getD 0 ≤ 200) ∧
    (∀ (db : DB) (body : MarksBody) (newId now : Nat) (tm : Option ℤ) (g : Option String),
      createMarks db { body with totalMarks := tm, grade := g } newId now =
        createMarks db body newId now) ∧
    (∀ (db : DB) (recordId : Nat) (body : MarksUpdateBody) (now : Nat) (db2 : DB)
        (r current : MarksRecord),
      updateMarks db recordId body now = (db2, .ok r) →
      db.marks.find? (fun m => m.id = recordId) = some current →
      marksInvariant current → marksInvariant r) ∧
    (∀ t : ℤ,
      (90 ≤ t → calculateGrade t = "A") ∧
      (80 ≤ t → t < 90 → calculateGrade t = "B") ∧
      (70 ≤ t → t < 80 → calculateGrade t = "C") ∧
      (60 ≤ t → t < 70 → calculateGrade t = "D") ∧
      (t < 60 → calculateGrade t = "F")) := by
  refine ⟨?_, ?_, ?_, ?_⟩
  · intro db body newId now db2 r h
    unfold createMarks at h
    split_ifs at h with g1 g2 g3 g4
    · injection h with h1 h2; exact Except.noConfusion h2
    · injection h with h1 h2; exact Except.noConfusion h2
    · injection h with h1 h2; exact Except.noConfusion h2
    · injection h with h1 h2; exact Except.noConfusion h2
    injection h with h1 h2
    injection h2 with h3
    subst h3
    obtain ⟨hi1, hi2⟩ := range_of_guard body.internalMarks g1
    obtain ⟨he1, he2⟩ := range_of_guard body.externalMarks g2
    refine ⟨rfl, rfl, ⟨rfl, rfl⟩, hi1, hi2, he1, he2, ?_⟩
    show calculateTotalMarks (body.internalMarks.getD 0) (body.externalMarks.getD 0) ≤ 200
    unfold calculateTotalMarks
    omega
  · intro db body newId now tm g
    rfl
  · intro db recordId body now db2 r current h hfind hc
    unfold updateMarks at h
    simp only [hfind] at h
    split_ifs at h with g1 g2 g3 g4 g5
    · injection h with h1 h2; exact Except.noConfusion h2
    · injection h with h1 h2; exact Except.noConfusion h2
    · injection h with h1 h2; exact Except.noConfusion h2
    · injection h with h1 h2; exact Except.noConfusion h2
    · injection h with h1 h2
      injection h2 with h3
      subst h3
      exact ⟨rfl, rfl⟩
    · injection h with h1 h2
      injection h2 with h3
      subst h3
      have g5f : (body.internalMarks.isSome || body.externalMarks.isSome) = false := by
        cases hcase : (body.internalMarks.isSome || body.externalMarks.isSome) with
        | true => exact absurd hcase g5
        | false => rfl
      obtain ⟨ha, hb⟩ := Bool.or_eq_false_iff.mp g5f
      have h5 : body.internalMarks = none :=
        Option.not_isSome_iff_eq_none.mp (by simp [ha])
      have h6 : body.externalMarks = none :=
        Option.not_isSome_iff_eq_none.mp (by simp [hb])
      constructor
      · simpa [h5, h6] using hc.1
      · simpa [h5, h6] using hc.2
  · intro t
    refine ⟨fun h => ?_, fun h1 h2 => ?_, fun h1 h2 => ?_, fun h1 h2 => ?_, fun h => ?_⟩ <;>
      unfold calculateGrade <;> split_ifs <;> first | rfl | omega

/-- Course 1 for the marks scenario. -/
def courseSample : Course := { id := 1, title := "Algorithms", code := "CS301" }

/-- Store with student 7 and course 1. -/
def dbMarks : DB := { dbSample with courses := [courseSample] }

/-- POST body with internal 45 and external 45; also carries
caller-supplied `totalMarks`/`grade` values that the handler must
ignore. -/
def marksBody4545 : MarksBody :=
  { studentId := 7, courseId := 1, semester := 1
    internalMarks := some 45, externalMarks := some 45 }

/-- The row POST inserts for `marksBody4545` at id 1, time 3. -/
def marksRec4545 : MarksRecord :=
  { id := 1, studentId := 7, courseId := 1, semester := 1
    internalMarks := some 45, externalMarks := some 45
    totalMarks := some 90, grade := some "A", createdAt := 3, updatedAt := 3 }

/-- C10 witness: creating marks with components 45 and 45 stores
totalMarks 90 and grade A (the sum reaching the 90 threshold), each
component in range and the total at most 200. -/
theorem marks_derivation_spec_witness :
    (marksRec4545.internalMarks = some (marksBody4545.internalMarks.getD 0) ∧
      marksRec4545.externalMarks = some (marksBody4545.externalMarks.getD 0) ∧
      marksInvariant marksRec4545 ∧
      0 ≤ marksBody4545.internalMarks.getD 0 ∧ marksBody4545.internalMarks.getD 0 ≤ 100 ∧
      0 ≤ marksBody4545.externalMarks.getD 0 ∧ marksBody4545.externalMarks.getD 0 ≤ 100 ∧
      marksRec4545.totalMarks.getD 0 ≤ 200) ∧
    calculateGrade 90 = "A" :=
  ⟨marks_derivation_spec.1 dbMarks marksBody4545 1 3
      { dbMarks with marks := [marksRec4545] } marksRec4545 rfl,
   (marks_derivation_spec.2.2.2 90).1 (by norm_num)⟩

end College
